import Mathlib

/-!
Verification development for the devtunnel-tui repository.

The repository holds two variants of the same Bubble Tea application:
* `src/main.go` — a flat command list (embedded below in namespace `MainGo`);
* `src/unnamed/part_000` — a category grid with filter and raw-command
  modes (embedded below in namespace `Part000`).

The embedding is shallow: models are plain structures, the Bubble Tea
`Update` functions become pure step functions `Model → Msg → Model × Cmd`,
and the asynchronous process runner is described by the list of messages it
delivers, parameterised by the behaviour of the child process (captured
output, whether the deadline expired, the exit error).

Library components from charmbracelet/bubbles are modelled by the state the
program observes: a text input is its text value plus placeholder (its
`Update` appends typed runes); the viewport is its dimensions, content and
scroll offset (its `Update` reacts to the default scroll keys and never
issues commands; the clamp of downward scrolling to the content height is
immaterial here and omitted). Spinner animation state and all lipgloss
styling are render-only and omitted.
-/

/-- Errors a Go `error` value can take in this program. -/
inductive GoError
  | deadlineExceeded
  | exitError
  | lookPathError
deriving DecidableEq, Repr

/-- A key press, `tea.KeyMsg`. `keyStr` below is Go `msg.String()`. -/
inductive Key
  | char (c : Char)
  | enter
  | esc
  | up
  | down
  | left
  | right
  | pgUp
  | pgDown
  | ctrlC
deriving DecidableEq, Repr

/-- Go `msg.String()` on a `tea.KeyMsg`. -/
def keyStr : Key → String
  | .char c => String.singleton c
  | .enter => "enter"
  | .esc => "esc"
  | .up => "up"
  | .down => "down"
  | .left => "left"
  | .right => "right"
  | .pgUp => "pgup"
  | .pgDown => "pgdown"
  | .ctrlC => "ctrl+c"

/-- The messages the event loop can receive (`tea.Msg`).  `runStarted` and
`runFinished` cover both variants (field names differ only cosmetically in
the source); `tick` is `spinner.TickMsg`. -/
inductive Msg
  | key (k : Key)
  | winSize (width height : Int)
  | runStarted (cmdText : String)
  | runFinished (cmdText : String) (output : String) (err : Option GoError)
  | tick
deriving DecidableEq, Repr

/-- The commands (`tea.Cmd`) the step functions return, abstracted to what
they do: `dispatch parts` is `runCommandCmd parts` with non-empty `parts`
(it launches the child process and delivers the started/finished pair),
`quit` is `tea.Quit`, `blink` is `textinput.Blink`, `tick` is
`spinner.Tick`; `none` is a nil command (viewport/textinput bookkeeping
commands are also modelled as `none` — they never launch a process). -/
inductive Cmd
  | none
  | quit
  | blink
  | tick
  | dispatch (parts : List String)
deriving DecidableEq, Repr

/-- `textinput.Model`, reduced to the state this program reads. -/
structure TextInput where
  value : String
  placeholder : String
deriving DecidableEq, Repr

/-- `textinput.Model.Update` on a key: typed runes are appended to the
value; editing keys other than rune input leave the value unchanged (no
claim depends on cursor movement or deletion). -/
def TextInput.update (t : TextInput) (k : Key) : TextInput :=
  match k with
  | .char c => { t with value := t.value ++ String.singleton c }
  | _ => t

/-- `viewport.Model`, reduced to the state this program reads. -/
structure Viewport where
  width : Int
  height : Int
  content : String
  yOffset : Int
deriving DecidableEq, Repr

def Viewport.setContent (v : Viewport) (s : String) : Viewport :=
  { v with content := s }

def Viewport.gotoTop (v : Viewport) : Viewport :=
  { v with yOffset := 0 }

def Viewport.halfViewUp (v : Viewport) : Viewport :=
  { v with yOffset := max 0 (v.yOffset - v.height / 2) }

def Viewport.halfViewDown (v : Viewport) : Viewport :=
  { v with yOffset := v.yOffset + v.height / 2 }

def Viewport.lineUp (v : Viewport) : Viewport :=
  { v with yOffset := max 0 (v.yOffset - 1) }

def Viewport.lineDown (v : Viewport) : Viewport :=
  { v with yOffset := v.yOffset + 1 }

def Viewport.viewUp (v : Viewport) : Viewport :=
  { v with yOffset := max 0 (v.yOffset - v.height) }

def Viewport.viewDown (v : Viewport) : Viewport :=
  { v with yOffset := v.yOffset + v.height }

/-- `viewport.Model.Update`: the default key map scrolls on pgup/pgdown,
b/f (page), u/d (half page), up/down/k/j (line); all other messages leave
it unchanged, and it issues no command outside high-performance mode. -/
def Viewport.update (v : Viewport) (msg : Msg) : Viewport :=
  match msg with
  | .key .pgUp => v.viewUp
  | .key (.char 'b') => v.viewUp
  | .key .pgDown => v.viewDown
  | .key (.char 'f') => v.viewDown
  | .key (.char 'u') => v.halfViewUp
  | .key (.char 'd') => v.halfViewDown
  | .key .up => v.lineUp
  | .key (.char 'k') => v.lineUp
  | .key .down => v.lineDown
  | .key (.char 'j') => v.lineDown
  | _ => v

/-- Substring occurrence on character lists: Go `strings.Contains`. -/
def listContainsSub (hay needle : List Char) : Bool :=
  if needle.isPrefixOf hay then true
  else
    match hay with
    | [] => false
    | _ :: t => listContainsSub t needle

/-- Go `strings.Contains hay needle`. -/
def strContains (hay needle : String) : Bool :=
  listContainsSub hay.data needle.data

/-- ASCII lowercasing of one character; Go `strings.ToLower` restricted to
the ASCII strings this program handles, by structural recursion so that
proofs can evaluate it. -/
def asciiToLower (c : Char) : Char :=
  if 'A'.toNat ≤ c.toNat ∧ c.toNat ≤ 'Z'.toNat then Char.ofNat (c.toNat + 32) else c

/-- Go `strings.ToLower` (ASCII range). -/
def toLowerStr (s : String) : String := ⟨s.data.map asciiToLower⟩

/-- Drop leading whitespace characters. -/
def trimLeading : List Char → List Char
  | [] => []
  | c :: t => if c.isWhitespace then trimLeading t else c :: t

/-- Go `strings.TrimSpace` (ASCII whitespace), by structural recursion. -/
def trimStr (s : String) : String :=
  ⟨(trimLeading (trimLeading s.data).reverse).reverse⟩

/-- Token accumulator for `goFields`. -/
def fieldsAux : List Char → List Char → List String
  | [], acc => if acc = [] then [] else [⟨acc.reverse⟩]
  | c :: t, acc =>
    if c.isWhitespace then
      (if acc = [] then fieldsAux t [] else (⟨acc.reverse⟩ : String) :: fieldsAux t [])
    else fieldsAux t (c :: acc)

/-- Go `strings.Fields`: split on runs of whitespace, dropping empty
pieces. -/
def goFields (s : String) : List String :=
  fieldsAux s.data []

/-- Go `strings.Join parts " "`. -/
def joinSpace (parts : List String) : String :=
  String.intercalate " " parts

/-- Field value read out of the i-th text input of a form; out-of-range
indexing (which would panic in Go and is unreachable in program states) is
the zero-value input. -/
def formInputValue (inputs : List TextInput) (i : Nat) : String :=
  (inputs.getD i { value := "", placeholder := "" }).value

/-- The required-argument collection loop shared by `updateForm`
(part_000) and `handlePromptInput` (main.go): walk the label at index i
paired with the input at index i from 0 upward; the first label whose
trimmed value is empty aborts, otherwise the trimmed values come back in
order. -/
def collectRequired : List String → List TextInput → Except String (List String)
  | [], _ => Except.ok []
  | label :: rest, inputs =>
    let v := trimStr (inputs.getD 0 { value := "", placeholder := "" }).value
    if v = "" then Except.error label
    else
      match collectRequired rest inputs.tail with
      | Except.error l => Except.error l
      | Except.ok vs => Except.ok (v :: vs)

namespace Part000

/-! Embedding of `src/unnamed/part_000`, the category-grid variant. -/

/-- `commandItem` (the field `example` is a Lean keyword, kept as
`exampleText`). -/
structure CommandItem where
  name : String
  description : String
  baseArgs : List String
  required : List String
  optional : String
  exampleText : String
deriving DecidableEq, Repr

/-- `commandCategory`. -/
structure CommandCategory where
  name : String
  commands : List CommandItem
deriving DecidableEq, Repr

/-- Shorthand for a catalog entry; unspecified Go struct fields are zero
values. -/
def item (name description : String) (baseArgs : List String)
    (required : List String := []) (optional : String := "")
    (exampleText : String := "") : CommandItem :=
  { name := name, description := description, baseArgs := baseArgs,
    required := required, optional := optional, exampleText := exampleText }

/-- `catalog()`. -/
def catalog : List CommandCategory :=
  [ { name := "Tunnels",
      commands :=
        [ item "list" "List tunnels" ["list"] [] "flags" "list --all",
          item "show" "Show tunnel details" ["show"] ["tunnel-id"],
          item "create" "Create a tunnel" ["create"] ["tunnel-id"] "flags",
          item "update" "Update tunnel properties" ["update"] ["tunnel-id"] "flags",
          item "delete" "Delete a tunnel" ["delete"] ["tunnel-id"],
          item "delete-all" "Delete all tunnels" ["delete-all"],
          item "set" "Set default tunnel" ["set"] ["tunnel-id"],
          item "unset" "Clear default tunnel" ["unset"],
          item "token" "Issue tunnel access token" ["token"] ["tunnel-id"] "flags" ] },
    { name := "Ports & Access",
      commands :=
        [ item "port" "Manage tunnel ports" ["port"] [] "subcommand and args" "port list <tunnel-id>",
          item "access" "Manage access control" ["access"] [] "subcommand and args" "access list <tunnel-id>" ] },
    { name := "Connections",
      commands :=
        [ item "host" "Host a tunnel" ["host"] [] "tunnel-id and flags",
          item "connect" "Connect to tunnel" ["connect"] ["tunnel-id"] "flags" ] },
    { name := "User",
      commands :=
        [ item "user login" "Authenticate user credentials" ["user", "login"],
          item "user logout" "Remove local credentials" ["user", "logout"],
          item "user" "Run user subcommand" ["user"] [] "subcommand and args" "user show" ] },
    { name := "Diagnostics",
      commands :=
        [ item "limits" "List user limits" ["limits"],
          item "clusters" "List clusters" ["clusters"],
          item "echo" "Run echo server" ["echo"] ["protocol"],
          item "ping" "Ping remote echo server" ["ping"] ["uri"] ] },
    { name := "Custom",
      commands :=
        [ item ": command mode" "Type any raw devtunnel command" [] ] } ]

/-- `model` (styles and spinner are render-only and omitted). -/
structure Model where
  width : Int
  height : Int
  ready : Bool
  devtunnelFound : Bool
  running : Bool
  statusText : String
  statusErr : Bool
  categories : List CommandCategory
  catIdx : Nat
  cmdIdx : Nat
  focusPane : Nat
  viewport : Viewport
  filterMode : Bool
  filterInput : TextInput
  cmdMode : Bool
  cmdInput : TextInput
  formMode : Bool
  formTitle : String
  formCmd : Option CommandItem
  formLabels : List String
  formInputs : List TextInput
  formIndex : Nat
  lastCmd : List String
  lastOutput : String
deriving DecidableEq, Repr

/-- `initialModel()`; unspecified Go struct fields are zero values.  The
source placeholder of `cmdInput` quotes the word devtunnel; the quotes are
immaterial and dropped here. -/
def initialModel : Model :=
  { width := 0, height := 0, ready := false,
    devtunnelFound := false, running := false,
    statusText := "checking devtunnel binary", statusErr := false,
    categories := catalog, catIdx := 0, cmdIdx := 0, focusPane := 1,
    viewport := { width := 0, height := 0, content := "", yOffset := 0 },
    filterMode := false,
    filterInput := { value := "", placeholder := "filter commands" },
    cmdMode := false,
    cmdInput := { value := "", placeholder := "type command after devtunnel" },
    formMode := false, formTitle := "", formCmd := Option.none,
    formLabels := [], formInputs := [], formIndex := 0,
    lastCmd := [], lastOutput := "" }

/-- `runCommandCmd` viewed as the command it hands to the runtime: nil for
an empty vector, otherwise the process dispatch. -/
def runCommandCmd (parts : List String) : Cmd :=
  if parts = [] then Cmd.none else Cmd.dispatch parts

/-- `visibleCommands`.  `catIdx` is a `Nat` here, so the `catIdx < 0` half
of the source range check is vacuous; the upper check is kept as the
dependent guard that also justifies the indexing. -/
def Model.visibleCommands (m : Model) : List CommandItem :=
  if h : m.catIdx < m.categories.length then
    let items := (m.categories.get ⟨m.catIdx, h⟩).commands
    let flt := trimStr (toLowerStr m.filterInput.value)
    if flt = "" then items
    else
      items.filter (fun it =>
        strContains
          (toLowerStr (it.name ++ " " ++ it.description ++ " " ++ joinSpace it.baseArgs)) flt)
  else []

/-- `moveUp`.  In the source this method has a value receiver, so the
mutation applies to a copy; this definition is that copy. -/
def Model.moveUp (m : Model) : Model :=
  if 0 < m.cmdIdx then { m with cmdIdx := m.cmdIdx - 1 } else m

/-- `moveDown`.  Value receiver in the source, as for `moveUp`. -/
def Model.moveDown (m : Model) : Model :=
  let cmds := m.visibleCommands
  if m.cmdIdx < cmds.length - 1 then { m with cmdIdx := m.cmdIdx + 1 } else m

/-- `updateForm`. -/
def Model.updateForm (m : Model) (k : Key) : Model × Cmd :=
  if keyStr k = "esc" then
    ({ m with formMode := false, formCmd := Option.none, formInputs := [],
              formLabels := [], formTitle := "", formIndex := 0 }, Cmd.none)
  else if keyStr k = "enter" then
    if m.formIndex < m.formInputs.length - 1 then
      -- Blur/Focus only toggle cursor display; the advance is the focus index.
      ({ m with formIndex := m.formIndex + 1 }, Cmd.none)
    else
      match m.formCmd with
      | Option.none => ({ m with formMode := false }, Cmd.none)
      | Option.some fc =>
        match collectRequired fc.required m.formInputs with
        | Except.error label =>
          ({ m with statusErr := true,
                    statusText := "missing required: " ++ label,
                    formMode := false, formCmd := Option.none }, Cmd.none)
        | Except.ok vs =>
          let parts := "devtunnel" :: fc.baseArgs ++ vs
          let parts :=
            if fc.optional ≠ "" then
              -- i := len(formInputs) - 1; the source guards i >= 0, which
              -- over Nat only excludes the empty-inputs case.
              if m.formInputs.length = 0 then parts
              else
                let extra := trimStr (formInputValue m.formInputs (m.formInputs.length - 1))
                if extra ≠ "" then parts ++ goFields extra else parts
            else parts
          ({ m with formMode := false, formCmd := Option.none, formInputs := [],
                    formLabels := [], formTitle := "", formIndex := 0,
                    lastCmd := parts }, runCommandCmd parts)
  else
    let cur := m.formInputs.getD m.formIndex { value := "", placeholder := "" }
    ({ m with formInputs := m.formInputs.set m.formIndex (cur.update k) }, Cmd.none)

/-- `updateCmdMode`. -/
def Model.updateCmdMode (m : Model) (k : Key) : Model × Cmd :=
  if keyStr k = "esc" then
    ({ m with cmdMode := false }, Cmd.none)
  else if keyStr k = "enter" then
    let raw := trimStr m.cmdInput.value
    let m := { m with cmdMode := false }
    if raw = "" then (m, Cmd.none)
    else
      let parts := "devtunnel" :: goFields raw
      ({ m with lastCmd := parts }, runCommandCmd parts)
  else
    ({ m with cmdInput := m.cmdInput.update k }, Cmd.none)

/-- `updateFilterMode`. -/
def Model.updateFilterMode (m : Model) (k : Key) : Model × Cmd :=
  if keyStr k = "esc" then
    ({ m with filterMode := false }, Cmd.none)
  else if keyStr k = "enter" then
    ({ m with filterMode := false, cmdIdx := 0 }, Cmd.none)
  else
    ({ m with filterInput := m.filterInput.update k, cmdIdx := 0 }, Cmd.none)

/-- Zero-value `commandItem`, standing in for the panic of an out-of-range
index (unreachable after the clamp in `runSelected`). -/
def defaultItem : CommandItem :=
  { name := "", description := "", baseArgs := [], required := [],
    optional := "", exampleText := "" }

/-- `runSelected`. -/
def Model.runSelected (m : Model) : Model × Cmd :=
  if !m.devtunnelFound then
    ({ m with statusErr := true, statusText := "install devtunnel CLI first" }, Cmd.none)
  else
    let cmds := m.visibleCommands
    if cmds.length = 0 then (m, Cmd.none)
    else
      let m := if cmds.length ≤ m.cmdIdx then { m with cmdIdx := cmds.length - 1 } else m
      let cmd := cmds.getD m.cmdIdx defaultItem
      if cmd.name = ": command mode" then
        ({ m with cmdMode := true, cmdInput := { m.cmdInput with value := "" } }, Cmd.blink)
      else
        let labels := cmd.required ++ (if cmd.optional ≠ "" then [cmd.optional] else [])
        if labels = [] then
          let parts := "devtunnel" :: cmd.baseArgs
          ({ m with lastCmd := parts }, runCommandCmd parts)
        else
          ({ m with formMode := true, formCmd := Option.some cmd, formTitle := cmd.name,
                    formLabels := labels,
                    formInputs := labels.map (fun l => { value := "", placeholder := l }),
                    formIndex := 0 }, Cmd.blink)

/-- The Normal-mode key switch of `Update` (the source `switch` with
boolean cases, translated case by case in order).  The `moveUp`/`moveDown`
cases call value-receiver methods whose result the Go caller discards, so
the model is returned unchanged there. -/
def Model.normalKey (m : Model) (k : Key) : Model × Cmd :=
  if k = Key.ctrlC || keyStr k = "q" then (m, Cmd.quit)
  else if k = Key.left || keyStr k = "h" then
    (if 0 < m.catIdx then { m with catIdx := m.catIdx - 1, cmdIdx := 0 } else m, Cmd.none)
  else if k = Key.right || keyStr k = "l" then
    (if m.catIdx < m.categories.length - 1 then
       { m with catIdx := m.catIdx + 1, cmdIdx := 0 } else m, Cmd.none)
  else if keyStr k = ":" then
    ({ m with cmdMode := true, cmdInput := { m.cmdInput with value := "" } }, Cmd.blink)
  else if keyStr k = "/" then
    ({ m with filterMode := true, focusPane := 1 }, Cmd.blink)
  else if keyStr k = "r" then
    if m.lastCmd ≠ [] then (m, runCommandCmd m.lastCmd) else (m, Cmd.none)
  else if keyStr k = "g" then ({ m with cmdIdx := 0 }, Cmd.none)
  else if keyStr k = "G" then
    (if m.visibleCommands.length ≠ 0 then
       { m with cmdIdx := m.visibleCommands.length - 1 } else m, Cmd.none)
  else if keyStr k = "1" || keyStr k = "2" || keyStr k = "3" ||
          keyStr k = "4" || keyStr k = "5" || keyStr k = "6" then
    let c := (keyStr k).toList.headD ' '
    let i := c.toNat - '1'.toNat
    (if i < m.categories.length then
       { m with catIdx := i, cmdIdx := 0, focusPane := 1 } else m, Cmd.none)
  else if k = Key.up || keyStr k = "k" then
    (m, Cmd.none)   -- m.moveUp() mutates a discarded copy
  else if k = Key.down || keyStr k = "j" then
    (m, Cmd.none)   -- m.moveDown() mutates a discarded copy
  else if k = Key.pgUp then ({ m with viewport := m.viewport.halfViewUp }, Cmd.none)
  else if k = Key.pgDown then ({ m with viewport := m.viewport.halfViewDown }, Cmd.none)
  else if keyStr k = "u" then ({ m with viewport := m.viewport.halfViewUp }, Cmd.none)
  else if keyStr k = "d" then ({ m with viewport := m.viewport.halfViewDown }, Cmd.none)
  else if k = Key.enter then m.runSelected
  else (m, Cmd.none)

/-- `Update`. -/
def Model.update (m : Model) (msg : Msg) : Model × Cmd :=
  match msg with
  | .winSize w h =>
    let m := { m with width := w, height := h }
    if !m.ready then
      ({ m with viewport := { width := max 20 (w - 64), height := max 8 (h - 10),
                              content := "Output will appear here", yOffset := 0 },
                ready := true }, Cmd.none)
    else
      let vp := { m.viewport with width := max 20 (w - 64), height := max 8 (h - 10) }
      ({ m with viewport := vp }, Cmd.none)
  | .tick => if m.running then (m, Cmd.tick) else (m, Cmd.none)
  | .runStarted cmdText =>
    ({ m with running := true, statusErr := false,
              statusText := "running " ++ cmdText,
              viewport := (m.viewport.setContent
                ("$ " ++ cmdText ++ "\n\nRunning...")).gotoTop }, Cmd.tick)
  | .runFinished cmdText output err =>
    if cmdText = "which devtunnel" then
      match err with
      | Option.some _ =>
        ({ m with devtunnelFound := false, statusErr := true,
                  statusText := "devtunnel not found in PATH" }, Cmd.none)
      | Option.none =>
        ({ m with devtunnelFound := true, statusErr := false,
                  statusText := "ready" }, Cmd.none)
    else
      let m := { m with running := false, lastOutput := output }
      let m :=
        match err with
        | Option.some _ => { m with statusErr := true, statusText := "command failed" }
        | Option.none => { m with statusErr := false, statusText := "command completed" }
      ({ m with viewport := (m.viewport.setContent
          ("$ " ++ cmdText ++ "\n\n" ++ output)).gotoTop }, Cmd.none)
  | .key k =>
    if m.formMode then m.updateForm k
    else if m.cmdMode then m.updateCmdMode k
    else if m.filterMode then m.updateFilterMode k
    else m.normalKey k

/-- Fold a message list through `update`, keeping the model. -/
def applyMsgs (m : Model) (msgs : List Msg) : Model :=
  msgs.foldl (fun s msg => (s.update msg).1) m

/-- The single message `checkBinaryCmd` delivers, by whether
`exec.LookPath "devtunnel"` succeeds.  It is a finished-notification with
the sentinel command text and is not preceded by any started message. -/
def checkBinaryMsgs (found : Bool) : List Msg :=
  if found then [Msg.runFinished "which devtunnel" "devtunnel detected" Option.none]
  else [Msg.runFinished "which devtunnel" "devtunnel not found in PATH"
          (Option.some GoError.lookPathError)]

/-- The finished message built by the second stage of `runCommandCmd`,
parameterised by the child process behaviour: `captured` is
`out.String()`, `timedOut` is `errors.Is(ctx.Err(), DeadlineExceeded)`,
`runErr` is the error from `cmd.Run()`. -/
def runResultMsgOf (cmdText captured : String) (timedOut : Bool)
    (runErr : Option GoError) : Msg :=
  if timedOut then
    Msg.runFinished cmdText (captured ++ "\n\nTimed out after 10 minutes.")
      (Option.some GoError.deadlineExceeded)
  else Msg.runFinished cmdText captured runErr

/-- The messages `runCommandCmd parts` delivers, in order
(`tea.Sequence` of the started message and the finished message); a nil
command (empty vector) delivers nothing. -/
def runCommandMsgs (parts : List String) (captured : String) (timedOut : Bool)
    (runErr : Option GoError) : List Msg :=
  if parts = [] then []
  else [Msg.runStarted (joinSpace parts),
        runResultMsgOf (joinSpace parts) captured timedOut runErr]

end Part000

namespace MainGo

/-! Embedding of `src/main.go`, the flat-list variant. -/

/-- `commandSpec`. -/
structure CommandSpec where
  label : String
  description : String
  baseArgs : List String
  requiredArgs : List String
  optionalArg : String
deriving DecidableEq, Repr

/-- Shorthand for a catalog entry; unspecified Go struct fields are zero
values. -/
def spec (label description : String) (baseArgs : List String)
    (requiredArgs : List String := []) (optionalArg : String := "") : CommandSpec :=
  { label := label, description := description, baseArgs := baseArgs,
    requiredArgs := requiredArgs, optionalArg := optionalArg }

/-- `defaultCommands()`. -/
def defaultCommands : List CommandSpec :=
  [ spec "user login" "Authenticate user credentials" ["user", "login"],
    spec "user logout" "Remove local credentials" ["user", "logout"],
    spec "list" "List tunnels" ["list"] [] "optional args (example: --all)",
    spec "show" "Show tunnel details" ["show"] ["tunnel-id"] "optional args",
    spec "create" "Create a tunnel" ["create"] ["tunnel-id"] "optional args",
    spec "update" "Update tunnel properties" ["update"] ["tunnel-id"] "optional args",
    spec "delete" "Delete one tunnel" ["delete"] ["tunnel-id"] "optional args",
    spec "delete-all" "Delete all tunnels" ["delete-all"] [] "optional args",
    spec "token" "Issue tunnel access token" ["token"] ["tunnel-id"] "optional args",
    spec "set" "Set default tunnel" ["set"] ["tunnel-id"] "optional args",
    spec "unset" "Clear default tunnel" ["unset"] [] "optional args",
    spec "access" "Manage tunnel access control entries" ["access"] [] "subcommand and args",
    spec "port" "Manage tunnel ports" ["port"] [] "subcommand and args",
    spec "host" "Host a tunnel" ["host"] [] "tunnel-id and args (blank = auto-create)",
    spec "connect" "Connect to tunnel" ["connect"] ["tunnel-id"] "optional args",
    spec "limits" "List user limits" ["limits"] [] "optional args",
    spec "clusters" "List service clusters" ["clusters"] [] "optional args",
    spec "echo" "Run diagnostic echo server" ["echo"] ["protocol"] "optional args",
    spec "ping" "Send messages to echo server" ["ping"] ["uri"] "optional args",
    spec "custom" "Run any raw command after devtunnel" [] ]

/-- `model` (styles and spinner omitted as render-only). -/
structure Model where
  width : Int
  height : Int
  ready : Bool
  devtunnelFound : Bool
  selected : Nat
  commands : List CommandSpec
  viewport : Viewport
  status : String
  running : Bool
  showHelp : Bool
  lastCommand : List String
  lastCommandText : String
  lastOutput : String
  inPrompt : Bool
  promptIndex : Nat
  activeCommand : Option CommandSpec
  promptInputs : List TextInput
  promptValues : List String
  currentPrompt : String
  customCmdInput : TextInput
deriving DecidableEq, Repr

/-- `initialModel()`. -/
def initialModel : Model :=
  { width := 0, height := 0, ready := false, devtunnelFound := false,
    selected := 0, commands := defaultCommands,
    viewport := { width := 0, height := 0, content := "", yOffset := 0 },
    status := "checking devtunnel binary", running := false, showHelp := false,
    lastCommand := [], lastCommandText := "", lastOutput := "",
    inPrompt := false, promptIndex := 0, activeCommand := Option.none,
    promptInputs := [], promptValues := [], currentPrompt := "",
    customCmdInput := { value := "", placeholder := "example: user show --verbose" } }

/-- `runCommandCmd` viewed as the command it hands to the runtime (the
deadline here is 5 minutes; only the notice text differs from the other
variant). -/
def runCommandCmd (parts : List String) : Cmd :=
  if parts = [] then Cmd.none else Cmd.dispatch parts

/-- Zero-value `commandSpec`, standing in for the panic of an out-of-range
index (unreachable in program states, where `selected` stays below the
catalog length). -/
def defaultSpec : CommandSpec :=
  { label := "", description := "", baseArgs := [], requiredArgs := [],
    optionalArg := "" }

/-- `startPrompt`. -/
def Model.startPrompt (m : Model) (cmd : CommandSpec) : Model × Cmd :=
  if !m.devtunnelFound then
    ({ m with status := "install devtunnel CLI first" }, Cmd.none)
  else if cmd.label = "custom" then
    ({ m with inPrompt := true, activeCommand := Option.some cmd,
              currentPrompt := "Custom command (after devtunnel)",
              customCmdInput := { m.customCmdInput with value := "" } }, Cmd.blink)
  else
    let fields := cmd.requiredArgs ++ (if cmd.optionalArg ≠ "" then [cmd.optionalArg] else [])
    if fields = [] then
      let parts := "devtunnel" :: cmd.baseArgs
      ({ m with lastCommand := parts }, runCommandCmd parts)
    else
      ({ m with promptInputs := fields.map (fun l => { value := "", placeholder := l }),
                promptValues := fields.map (fun _ => ""),
                inPrompt := true, promptIndex := 0,
                activeCommand := Option.some cmd,
                currentPrompt := fields.headD "" }, Cmd.blink)

/-- `handlePromptInput`. -/
def Model.handlePromptInput (m : Model) (k : Key) : Model × Cmd :=
  match m.activeCommand with
  | Option.none => ({ m with inPrompt := false }, Cmd.none)
  | Option.some ac =>
    if ac.label = "custom" then
      if keyStr k = "esc" then
        ({ m with inPrompt := false, activeCommand := Option.none,
                  currentPrompt := "" }, Cmd.none)
      else if keyStr k = "enter" then
        let raw := trimStr m.customCmdInput.value
        let m := { m with inPrompt := false, activeCommand := Option.none,
                          currentPrompt := "" }
        if raw = "" then (m, Cmd.none)
        else
          let parts := "devtunnel" :: goFields raw
          ({ m with lastCommand := parts }, runCommandCmd parts)
      else
        ({ m with customCmdInput := m.customCmdInput.update k }, Cmd.none)
    else
      if keyStr k = "esc" then
        ({ m with inPrompt := false, activeCommand := Option.none,
                  currentPrompt := "" }, Cmd.none)
      else if keyStr k = "enter" then
        let entered := trimStr (formInputValue m.promptInputs m.promptIndex)
        let m := { m with promptValues := m.promptValues.set m.promptIndex entered }
        if m.promptIndex < m.promptInputs.length - 1 then
          let nextIdx := m.promptIndex + 1
          ({ m with promptIndex := nextIdx,
                    currentPrompt :=
                      (m.promptInputs.getD nextIdx { value := "", placeholder := "" }).placeholder },
           Cmd.none)
        else
          -- the loop over requiredArgs reads promptValues[i]
          match collectRequired ac.requiredArgs
              (m.promptValues.map (fun v => { value := v, placeholder := "" })) with
          | Except.error label =>
            ({ m with status := "missing required argument: " ++ label,
                      inPrompt := false, activeCommand := Option.none,
                      currentPrompt := "" }, Cmd.none)
          | Except.ok vs =>
            let args := ac.baseArgs ++ vs
            let args :=
              if ac.optionalArg ≠ "" then
                -- optIndex := len(promptInputs) - 1, forced to -1 when the
                -- required count equals the input count
                if ac.requiredArgs.length = m.promptInputs.length then args
                else
                  let extra := trimStr (m.promptValues.getD (m.promptInputs.length - 1) "")
                  if extra ≠ "" then args ++ goFields extra else args
              else args
            let parts := "devtunnel" :: args
            ({ m with lastCommand := parts, inPrompt := false,
                      activeCommand := Option.none, currentPrompt := "" },
             runCommandCmd parts)
      else
        let cur := m.promptInputs.getD m.promptIndex { value := "", placeholder := "" }
        ({ m with promptInputs := m.promptInputs.set m.promptIndex (cur.update k) },
         Cmd.none)

/-- The tail of `Update`: cases that neither return early nor quit fall
through to `m.viewport.Update(msg)` whose command (nil outside
high-performance rendering) is the returned command. -/
def viewportFall (m : Model) (msg : Msg) : Model × Cmd :=
  ({ m with viewport := m.viewport.update msg }, Cmd.none)

/-- `Update`. -/
def Model.update (m : Model) (msg : Msg) : Model × Cmd :=
  match msg with
  | .winSize w h =>
    let m := { m with width := w, height := h }
    if !m.ready then
      viewportFall
        { m with viewport := { width := w - 4, height := max 8 (h - 14),
                               content := "Waiting for command output...", yOffset := 0 },
                 ready := true } msg
    else
      let vp := { m.viewport with width := w - 4, height := max 8 (h - 14) }
      viewportFall { m with viewport := vp } msg
  | .key k =>
    if m.running then
      if keyStr k = "ctrl+c" || keyStr k = "q" then (m, Cmd.quit)
      else viewportFall m msg   -- break: only the viewport still sees the key
    else if m.inPrompt then m.handlePromptInput k
    else if keyStr k = "ctrl+c" || keyStr k = "q" then (m, Cmd.quit)
    else if keyStr k = "?" then viewportFall { m with showHelp := !m.showHelp } msg
    else if keyStr k = "up" || keyStr k = "k" then
      viewportFall (if 0 < m.selected then { m with selected := m.selected - 1 } else m) msg
    else if keyStr k = "down" || keyStr k = "j" then
      viewportFall
        (if m.selected < m.commands.length - 1 then
           { m with selected := m.selected + 1 } else m) msg
    else if keyStr k = "r" then
      if m.lastCommand ≠ [] then (m, runCommandCmd m.lastCommand)
      else viewportFall m msg
    else if keyStr k = "enter" then
      m.startPrompt (m.commands.getD m.selected defaultSpec)
    else viewportFall m msg
  | .runStarted cmdText =>
    ({ m with running := true, status := "running: " ++ cmdText,
              lastCommandText := cmdText,
              viewport := m.viewport.setContent
                ("Running command...\n\n" ++ cmdText) }, Cmd.tick)
  | .runFinished cmdText output err =>
    if cmdText = "which devtunnel" then
      match err with
      | Option.some _ =>
        ({ m with devtunnelFound := false, status := "devtunnel not found in PATH" },
         Cmd.none)
      | Option.none =>
        ({ m with devtunnelFound := true, status := "ready" }, Cmd.none)
    else
      let m := { m with running := false }
      let m :=
        match err with
        | Option.some _ => { m with status := "command failed" }
        | Option.none => { m with status := "command completed" }
      ({ m with lastOutput := output,
                viewport := (m.viewport.setContent
                  ("$ " ++ cmdText ++ "\n\n" ++ output)).gotoTop }, Cmd.none)
  | .tick => if m.running then (m, Cmd.tick) else viewportFall m msg

/-- Fold a message list through `update`, keeping the model. -/
def applyMsgs (m : Model) (msgs : List Msg) : Model :=
  msgs.foldl (fun s msg => (s.update msg).1) m

end MainGo

/-! Predicates and concrete states used by the claim theorems. -/

/-- Is the message a started notification? -/
def isStartedMsg : Msg → Bool
  | .runStarted _ => true
  | _ => false

/-- Is the message a finished notification? -/
def isFinishedMsg : Msg → Bool
  | .runFinished _ _ _ => true
  | _ => false

/-- Ordering property of a delivered message list: every finished
notification is preceded by a started notification of the same request
(the list describes one invocation, so sameness of request is position in
this list). -/
def startedPrecedesFinished (msgs : List Msg) : Prop :=
  ∀ i, (h : i < msgs.length) → isFinishedMsg (msgs.get ⟨i, h⟩) = true →
    ∃ j, ∃ (hj : j < msgs.length), j < i ∧ isStartedMsg (msgs.get ⟨j, hj⟩) = true

/-- The visibility predicate in the claim's own words: the case-insensitive
concatenation of name, description and base arguments contains the filter
text (as typed, untrimmed) as a substring. -/
def claimMatches (flt : String) (it : Part000.CommandItem) : Bool :=
  strContains (toLowerStr (it.name ++ " " ++ it.description ++ " " ++ joinSpace it.baseArgs))
    (toLowerStr flt)

/-- The visibility predicate with the correction the code forces: the
filter text is whitespace-trimmed (after lowercasing) before the substring
test; a whitespace-only filter therefore matches everything. -/
def amendedMatches (flt : String) (it : Part000.CommandItem) : Bool :=
  strContains (toLowerStr (it.name ++ " " ++ it.description ++ " " ++ joinSpace it.baseArgs))
    (trimStr (toLowerStr flt))

/-- Reachable state for the C1 counterexample: the startup probe reports
the binary missing (exactly the message `checkBinaryCmd` delivers in that
case), then the operator presses `:` and types `x`.  Every message in the
trace is one the real event loop can deliver from start-up. -/
def c1State : Part000.Model :=
  Part000.applyMsgs Part000.initialModel
    (Part000.checkBinaryMsgs false ++ [Msg.key (Key.char ':'), Msg.key (Key.char 'x')])

/-- Reachable state for the C2 counterexample: the probe reports the binary
present, the operator jumps to the Diagnostics category (key 5) and runs
the selected `limits` entry (a no-argument command, so Enter dispatches
immediately), and the dispatched invocation's started notification has been
delivered, so an execution is outstanding. -/
def c2State : Part000.Model :=
  Part000.applyMsgs Part000.initialModel
    (Part000.checkBinaryMsgs true ++
      [Msg.key (Key.char '5'), Msg.key Key.enter, Msg.runStarted "devtunnel limits"])

/-- State for the C5 counterexample: Diagnostics category selected, filter
text with a trailing space. -/
def c5State : Part000.Model :=
  { Part000.initialModel with
      catIdx := 4,
      filterInput := { value := "server ping ", placeholder := "filter commands" } }

/-- The `ping` catalog entry of the Diagnostics category. -/
def pingItem : Part000.CommandItem :=
  Part000.item "ping" "Ping remote echo server" ["ping"] ["uri"]

/-- State for the C6 witness: the `show` form filled with the claim's
field values. -/
def c6State : Part000.Model :=
  { Part000.initialModel with
      formMode := true,
      formCmd := Option.some (Part000.item "demo" "Demo command" ["demo"] ["a", "b"] "c"),
      formLabels := ["a", "b", "c"],
      formInputs := [{ value := "X", placeholder := "a" },
                     { value := "Y", placeholder := "b" },
                     { value := "--flag val", placeholder := "c" }],
      formIndex := 2 }

/-- State for the C7 witness: the `show` form with its one required field
left empty, focus on the last field. -/
def c7State : Part000.Model :=
  { Part000.initialModel with
      formMode := true,
      formCmd := Option.some (Part000.item "show" "Show tunnel details" ["show"] ["tunnel-id"]),
      formLabels := ["tunnel-id"],
      formInputs := [{ value := "", placeholder := "tunnel-id" }],
      formIndex := 0 }

/-- State for the C10 witness: like `c7State` but with a previously
dispatched command remembered. -/
def c10State : Part000.Model :=
  { Part000.initialModel with
      formMode := true,
      formCmd := Option.some (Part000.item "show" "Show tunnel details" ["show"] ["tunnel-id"]),
      formLabels := ["tunnel-id"],
      formInputs := [{ value := "  ", placeholder := "tunnel-id" }],
      formIndex := 0,
      lastCmd := ["devtunnel", "list"],
      lastOutput := "tunnels: none" }

/-! Claim theorems. -/

/-- C1, counterexample.  In the reachable state `c1State` the
tool-availability flag is false, yet submitting the raw command buffer
(key Enter in command mode) invokes the Process Runner with
`devtunnel x` — `updateCmdMode` never consults `devtunnelFound`, so the
claimed guard does not cover raw-command submission. -/
theorem c1_counterexample :
    c1State.devtunnelFound = false ∧
    (c1State.update (Msg.key Key.enter)).2 = Cmd.dispatch ["devtunnel", "x"] :=
  ⟨rfl, by decide⟩

/-- C2, counterexample.  In the reachable state `c2State` an execution is
outstanding (`running = true`), yet the Enter key is processed normally by
the category-grid variant and dispatches a second Process Runner
invocation — its key handler never consults `running`. -/
theorem c2_counterexample :
    c2State.running = true ∧
    (c2State.update (Msg.key Key.enter)).2 = Cmd.dispatch ["devtunnel", "limits"] :=
  ⟨rfl, by decide⟩

/-- C4, code bug.  In the initial state of the category-grid variant the
Tunnels category shows nine commands and the cursor is 0, but a
down-navigation key leaves the cursor at 0: the source calls
`m.moveDown()` on a value receiver, so the incremented copy (whose cursor
is 1, third conjunct) is discarded.  The README documents j/k and the
arrow keys as moving the command selection. -/
theorem c4_value_receiver_bug :
    (Part000.initialModel.update (Msg.key (Key.char 'j'))).1.cmdIdx = 0 ∧
    (Part000.initialModel.update (Msg.key Key.down)).1.cmdIdx = 0 ∧
    (Part000.initialModel.update (Msg.key Key.up)).1.cmdIdx =
      Part000.initialModel.cmdIdx ∧
    Part000.initialModel.visibleCommands.length = 9 ∧
    Part000.initialModel.moveDown.cmdIdx = 1 :=
  ⟨rfl, rfl, rfl, by decide, by decide⟩

/-- C5, counterexample.  With category Diagnostics and filter text
`"server ping "` (trailing space) the code shows exactly the `ping`
entry, but the claim's predicate — the untrimmed filter text must occur in
the case-insensitive haystack — rejects `ping`, so the visible list is not
the subsequence the claim describes: the code trims the filter first. -/
theorem c5_counterexample :
    c5State.visibleCommands = [pingItem] ∧
    claimMatches c5State.filterInput.value pingItem = false :=
  ⟨by decide, by decide⟩

/-- C9, counterexample.  The flat-list variant computes the output
viewport width as the terminal width minus 4 without a lower clamp: a
resize message reporting width 0 leaves the viewport with width −4, which
is not strictly positive. -/
theorem c9_counterexample :
    (MainGo.initialModel.update (Msg.winSize 0 0)).1.viewport.width = -4 ∧
    ¬ (1 ≤ (MainGo.initialModel.update (Msg.winSize 0 0)).1.viewport.width) :=
  ⟨rfl, by decide⟩

/-- C8.  The finished notification built by `runCommandCmd`: when the
deadline was exceeded it carries the captured output with the timeout
notice appended and the deadline-exceeded classification, and when the
child finished in time it carries the captured output unchanged with the
child's own error; moreover any delivery of `runCommandCmd` contains at
most one finished notification. -/
theorem c8_timeout_output (cmdText captured : String) (runErr : Option GoError)
    (parts : List String) (timedOut : Bool) :
    Part000.runResultMsgOf cmdText captured true runErr =
      Msg.runFinished cmdText (captured ++ "\n\nTimed out after 10 minutes.")
        (Option.some GoError.deadlineExceeded) ∧
    Part000.runResultMsgOf cmdText captured false runErr =
      Msg.runFinished cmdText captured runErr ∧
    (Part000.runCommandMsgs parts captured timedOut runErr).countP
      (fun x => isFinishedMsg x) ≤ 1 := by
  refine ⟨rfl, rfl, ?_⟩
  by_cases hp : parts = []
  · simp [Part000.runCommandMsgs, hp]
  · by_cases ht : timedOut = true
    · simp [Part000.runCommandMsgs, Part000.runResultMsgOf, hp, ht,
        List.countP_cons, isStartedMsg, isFinishedMsg]
    · simp [Part000.runCommandMsgs, Part000.runResultMsgOf, hp, ht,
        List.countP_cons, isStartedMsg, isFinishedMsg]

/-- C1, amended.  The dispatch guard does hold for selection-based
dispatch: in any state with the tool-availability flag false and no
text-entry mode active, confirming the selection (Enter in Normal mode)
sets the install-instruction status and returns no command, so the
Process Runner is not invoked on that path. -/
theorem c1_guard_selection (m : Part000.Model)
    (hfound : m.devtunnelFound = false)
    (hform : m.formMode = false) (hcmd : m.cmdMode = false)
    (hfilter : m.filterMode = false) :
    m.update (Msg.key Key.enter) =
      ({ m with statusErr := true, statusText := "install devtunnel CLI first" },
       Cmd.none) := by
  simp [Part000.Model.update, Part000.Model.normalKey, Part000.Model.runSelected,
    keyStr, hfound, hform, hcmd, hfilter]

/-- Witness for `c1_guard_selection` at the initial state. -/
theorem c1_guard_selection_witness :
    Part000.initialModel.update (Msg.key Key.enter) =
      ({ Part000.initialModel with
           statusErr := true,
           statusText := "install devtunnel CLI first" }, Cmd.none) :=
  c1_guard_selection Part000.initialModel rfl rfl rfl rfl

/-- C2, amended.  In the flat-list variant the busy guard does hold:
while an execution is outstanding, ctrl+c/q quit the program, and every
other key message returns no command (so no Process Runner invocation)
and changes the model in at most the output viewport. -/
theorem c2_running_suppresses_dispatch (m : MainGo.Model) (k : Key)
    (hrun : m.running = true) :
    ((keyStr k = "ctrl+c" ∨ keyStr k = "q") →
      m.update (Msg.key k) = (m, Cmd.quit)) ∧
    (¬ (keyStr k = "ctrl+c" ∨ keyStr k = "q") →
      (m.update (Msg.key k)).2 = Cmd.none ∧
      { (m.update (Msg.key k)).1 with viewport := m.viewport } = m) := by
  constructor
  · intro hq
    rcases hq with hq | hq <;>
      simp [MainGo.Model.update, hrun, hq]
  · intro hq
    rw [not_or] at hq
    obtain ⟨h1, h2⟩ := hq
    simp [MainGo.Model.update, MainGo.viewportFall, hrun, h1, h2]
    rw [← hrun]

/-- Witness for `c2_running_suppresses_dispatch` at a concrete busy state
and a non-quit key. -/
theorem c2_running_suppresses_dispatch_witness :
    (({ MainGo.initialModel with running := true } : MainGo.Model).update
        (Msg.key (Key.char 'x'))).2 = Cmd.none ∧
    ({ (({ MainGo.initialModel with running := true } : MainGo.Model).update
          (Msg.key (Key.char 'x'))).1 with
        viewport := ({ MainGo.initialModel with
          running := true } : MainGo.Model).viewport } =
      ({ MainGo.initialModel with running := true } : MainGo.Model)) :=
  (c2_running_suppresses_dispatch { MainGo.initialModel with running := true }
    (Key.char 'x') rfl).2 (by decide)

/-- C3, counterexample.  The startup probe (`checkBinaryCmd`) delivers a
single finished notification and no started notification at all, so for
that invocation the claimed precedence fails. -/
theorem c3_counterexample :
    ¬ startedPrecedesFinished (Part000.checkBinaryMsgs true) := by
  intro h
  obtain ⟨j, hj, hji, _⟩ := h 0 (by decide) (by decide)
  exact absurd hji (Nat.not_lt_zero j)

/-- C3, amended.  User-issued invocations are correctly ordered:
`runCommandCmd` with a non-empty vector delivers exactly the started
notification followed by the finished notification, so every finished
notification is preceded by the started one of the same invocation; the
startup probe, however, delivers exactly one finished notification and
never a started one. -/
theorem c3_ordering_amended (parts : List String) (captured : String)
    (timedOut : Bool) (runErr : Option GoError) (hp : parts ≠ []) :
    Part000.runCommandMsgs parts captured timedOut runErr =
      [Msg.runStarted (joinSpace parts),
       Part000.runResultMsgOf (joinSpace parts) captured timedOut runErr] ∧
    startedPrecedesFinished (Part000.runCommandMsgs parts captured timedOut runErr) ∧
    (∀ found : Bool, (Part000.checkBinaryMsgs found).length = 1 ∧
      ∀ msg ∈ Part000.checkBinaryMsgs found,
        isStartedMsg msg = false ∧ isFinishedMsg msg = true) := by
  have heq : Part000.runCommandMsgs parts captured timedOut runErr =
      [Msg.runStarted (joinSpace parts),
       Part000.runResultMsgOf (joinSpace parts) captured timedOut runErr] := by
    simp [Part000.runCommandMsgs, hp]
  refine ⟨heq, ?_, ?_⟩
  · rw [heq]
    intro i hi hf
    match i, hi, hf with
    | 0, _, hf => exact absurd hf (by simp [isStartedMsg, isFinishedMsg, List.get])
    | 1, _, _ =>
      exact ⟨0, by simp, Nat.zero_lt_one, by simp [isStartedMsg, List.get]⟩
  · intro found
    cases found <;>
      simp [Part000.checkBinaryMsgs, isStartedMsg, isFinishedMsg]

/-- Witness for `c3_ordering_amended` at a concrete invocation. -/
theorem c3_ordering_amended_witness :
    Part000.runCommandMsgs ["devtunnel", "list"] "out" false Option.none =
      [Msg.runStarted "devtunnel list",
       Msg.runFinished "devtunnel list" "out" Option.none] :=
  ((c3_ordering_amended ["devtunnel", "list"] "out" false Option.none
    (by decide)).1).trans (by decide)

/-- The empty needle occurs in every haystack. -/
theorem strContains_empty (s : String) : strContains s "" = true := by
  unfold strContains
  unfold listContainsSub
  simp [List.isPrefixOf]

/-- C5, amended.  For every state whose category cursor is in range, the
visible command list is exactly the filter of that category's commands by
the case-insensitive substring test against the whitespace-TRIMMED filter
text (a subsequence in catalog order); an empty — or whitespace-only —
filter therefore yields the whole category. -/
theorem c5_filter_amended (m : Part000.Model) (h : m.catIdx < m.categories.length) :
    m.visibleCommands =
      ((m.categories.get ⟨m.catIdx, h⟩).commands).filter
        (amendedMatches m.filterInput.value) := by
  unfold Part000.Model.visibleCommands amendedMatches
  rw [dif_pos h]
  by_cases hflt : trimStr (toLowerStr m.filterInput.value) = ""
  · simp only [hflt, eq_self_iff_true, if_true]
    symm
    rw [List.filter_eq_self]
    intro a _
    exact strContains_empty _
  · rw [if_neg hflt]

/-- Witness for `c5_filter_amended` at the initial state. -/
theorem c5_filter_amended_witness :
    Part000.initialModel.visibleCommands =
      ((Part000.initialModel.categories.get
          ⟨Part000.initialModel.catIdx, by decide⟩).commands).filter
        (amendedMatches Part000.initialModel.filterInput.value) :=
  c5_filter_amended Part000.initialModel (by decide)

/-- Shifting an index across `List.tail` for defaulted indexing. -/
theorem getD_tail (l : List TextInput) (i : Nat) (d : TextInput) :
    l.tail.getD i d = l.getD (i + 1) d := by
  cases l <;> simp [List.getD]

/-- `collectRequired` aborts with exactly the label of the first required
field (in declared order) whose trimmed value is empty. -/
theorem collectRequired_error_first (i : Nat) :
    ∀ (required : List String) (inputs : List TextInput)
      (hi : i < required.length),
      trimStr (formInputValue inputs i) = "" →
      (∀ j, j < i → trimStr (formInputValue inputs j) ≠ "") →
      collectRequired required inputs = Except.error (required.get ⟨i, hi⟩) := by
  induction i with
  | zero =>
    intro required inputs hi hempty _
    match required, hi with
    | label :: rest, _ =>
      unfold collectRequired
      rw [show (inputs.getD 0 { value := "", placeholder := "" }).value =
            formInputValue inputs 0 from rfl, hempty]
      simp [List.get]
  | succ n ih =>
    intro required inputs hi hempty hbefore
    match required, hi with
    | label :: rest, hi =>
      have h0 : trimStr (formInputValue inputs 0) ≠ "" := hbefore 0 (Nat.succ_pos n)
      have hrec := ih rest inputs.tail (Nat.lt_of_succ_lt_succ hi)
        (by rw [formInputValue, getD_tail]; exact hempty)
        (by
          intro j hj
          rw [formInputValue, getD_tail]
          exact hbefore (j + 1) (Nat.succ_lt_succ hj))
      unfold collectRequired
      rw [show (inputs.getD 0 { value := "", placeholder := "" }).value =
            formInputValue inputs 0 from rfl]
      rw [if_neg h0, hrec]
      rfl

/-- If some required field's trimmed value is empty, `collectRequired`
aborts with some label. -/
theorem collectRequired_error_of_empty (i : Nat) :
    ∀ (required : List String) (inputs : List TextInput),
      i < required.length →
      trimStr (formInputValue inputs i) = "" →
      ∃ l, collectRequired required inputs = Except.error l := by
  induction i with
  | zero =>
    intro required inputs hi hempty
    match required, hi with
    | label :: rest, _ =>
      refine ⟨label, ?_⟩
      unfold collectRequired
      rw [show (inputs.getD 0 { value := "", placeholder := "" }).value =
            formInputValue inputs 0 from rfl, hempty]
      simp
  | succ n ih =>
    intro required inputs hi hempty
    match required, hi with
    | label :: rest, hi =>
      by_cases h0 : trimStr (formInputValue inputs 0) = ""
      · refine ⟨label, ?_⟩
        unfold collectRequired
        rw [show (inputs.getD 0 { value := "", placeholder := "" }).value =
              formInputValue inputs 0 from rfl, h0]
        simp
      · obtain ⟨l, hl⟩ := ih rest inputs.tail (Nat.lt_of_succ_lt_succ hi)
          (by rw [formInputValue, getD_tail]; exact hempty)
        refine ⟨l, ?_⟩
        unfold collectRequired
        rw [show (inputs.getD 0 { value := "", placeholder := "" }).value =
              formInputValue inputs 0 from rfl]
        rw [if_neg h0, hl]

/-- C6.  For any command whose spec has required labels `[a, b]` and a
non-empty optional label `c`, submitting the argument form (Enter on the
last field) with field values `X` for `a`, `Y` for `b` and `--flag val`
for `c` dispatches exactly
`[devtunnel, ...baseArgs, X, Y, --flag, val]` — required values in
declared order as single tokens, the optional value split on whitespace
into trailing tokens — and records that vector as the last command. -/
theorem c6_form_vector (m : Part000.Model) (nm ds c ex : String)
    (base : List String) (a b p1 p2 p3 : String)
    (hmode : m.formMode = true)
    (hcmd : m.formCmd = Option.some
      { name := nm, description := ds, baseArgs := base, required := [a, b],
        optional := c, exampleText := ex })
    (hc : c ≠ "")
    (hin : m.formInputs = [{ value := "X", placeholder := p1 },
                           { value := "Y", placeholder := p2 },
                           { value := "--flag val", placeholder := p3 }])
    (hidx : m.formIndex = 2) :
    (m.update (Msg.key Key.enter)).2 =
      Cmd.dispatch ("devtunnel" :: (base ++ ["X", "Y", "--flag", "val"])) ∧
    (m.update (Msg.key Key.enter)).1.lastCmd =
      "devtunnel" :: (base ++ ["X", "Y", "--flag", "val"]) := by
  have hX : trimStr "X" = "X" := by decide
  have hY : trimStr "Y" = "Y" := by decide
  have hF : trimStr "--flag val" = "--flag val" := by decide
  have hG : goFields "--flag val" = ["--flag", "val"] := by decide
  constructor <;>
    simp [Part000.Model.update, Part000.Model.updateForm, keyStr, hmode, hcmd,
      hin, hidx, collectRequired, formInputValue, hX, hY, hF, hG, hc,
      Part000.runCommandCmd]

/-- Witness for `c6_form_vector` at a concrete filled form. -/
theorem c6_form_vector_witness :
    (c6State.update (Msg.key Key.enter)).2 =
      Cmd.dispatch ("devtunnel" :: (["demo"] ++ ["X", "Y", "--flag", "val"])) ∧
    (c6State.update (Msg.key Key.enter)).1.lastCmd =
      "devtunnel" :: (["demo"] ++ ["X", "Y", "--flag", "val"]) :=
  c6_form_vector c6State "demo" "Demo command" "c" "" ["demo"] "a" "b"
    "a" "b" "c" rfl rfl (by decide) rfl rfl

/-- C7.  Submitting the argument form on its last field when the i-th
required field is the first (in declared order) whose trimmed value is
empty returns to Normal mode (the form flag drops), dispatches nothing,
and sets a status message naming exactly that field's label. -/
theorem c7_missing_required (m : Part000.Model) (fc : Part000.CommandItem)
    (i : Nat)
    (hmode : m.formMode = true)
    (hcmd : m.formCmd = Option.some fc)
    (hlast : ¬ (m.formIndex < m.formInputs.length - 1))
    (hi : i < fc.required.length)
    (hempty : trimStr (formInputValue m.formInputs i) = "")
    (hbefore : ∀ j, j < i → trimStr (formInputValue m.formInputs j) ≠ "") :
    (m.update (Msg.key Key.enter)).2 = Cmd.none ∧
    (m.update (Msg.key Key.enter)).1.formMode = false ∧
    (m.update (Msg.key Key.enter)).1.statusText =
      "missing required: " ++ fc.required.get ⟨i, hi⟩ := by
  have herr := collectRequired_error_first i fc.required m.formInputs hi hempty hbefore
  refine ⟨?_, ?_, ?_⟩ <;>
    simp [Part000.Model.update, Part000.Model.updateForm, keyStr, hmode, hcmd,
      hlast, herr]

/-- Witness for `c7_missing_required` at a concrete form with its single
required field left empty. -/
theorem c7_missing_required_witness :
    (c7State.update (Msg.key Key.enter)).2 = Cmd.none ∧
    (c7State.update (Msg.key Key.enter)).1.formMode = false ∧
    (c7State.update (Msg.key Key.enter)).1.statusText =
      "missing required: tunnel-id" := by
  have h := c7_missing_required c7State
    (Part000.item "show" "Show tunnel details" ["show"] ["tunnel-id"]) 0
    rfl rfl (by decide) (by decide) (by decide)
    (fun j hj => absurd hj (Nat.not_lt_zero j))
  exact ⟨h.1, h.2.1, h.2.2⟩

/-- C10.  When a form submission aborts because some required field's
trimmed value is empty, the remembered last command and last output are
exactly what they were before the submission, no command is dispatched,
and a subsequent rerun key (r) from the resulting Normal-mode state
re-dispatches precisely the previously dispatched vector. -/
theorem c10_abort_frame (m : Part000.Model) (fc : Part000.CommandItem) (i : Nat)
    (hmode : m.formMode = true)
    (hcmdmode : m.cmdMode = false) (hfilter : m.filterMode = false)
    (hcmd : m.formCmd = Option.some fc)
    (hlast : ¬ (m.formIndex < m.formInputs.length - 1))
    (hi : i < fc.required.length)
    (hempty : trimStr (formInputValue m.formInputs i) = "")
    (hne : m.lastCmd ≠ []) :
    (m.update (Msg.key Key.enter)).2 = Cmd.none ∧
    (m.update (Msg.key Key.enter)).1.lastCmd = m.lastCmd ∧
    (m.update (Msg.key Key.enter)).1.lastOutput = m.lastOutput ∧
    ((m.update (Msg.key Key.enter)).1.update (Msg.key (Key.char 'r'))).2 =
      Cmd.dispatch m.lastCmd := by
  obtain ⟨l, hl⟩ := collectRequired_error_of_empty i fc.required m.formInputs hi hempty
  have hstep : m.update (Msg.key Key.enter) =
      ({ m with statusErr := true, statusText := "missing required: " ++ l,
                formMode := false, formCmd := Option.none }, Cmd.none) := by
    simp [Part000.Model.update, Part000.Model.updateForm, keyStr, hmode, hcmd,
      hlast, hl]
  rw [hstep]
  have hr : keyStr (Key.char 'r') = "r" := by decide
  refine ⟨rfl, rfl, rfl, ?_⟩
  simp [Part000.Model.update, Part000.Model.normalKey, hr, hcmdmode, hfilter,
    hne, Part000.runCommandCmd]

/-- Witness for `c10_abort_frame` at a concrete aborted form with a
previously dispatched command. -/
theorem c10_abort_frame_witness :
    (c10State.update (Msg.key Key.enter)).2 = Cmd.none ∧
    (c10State.update (Msg.key Key.enter)).1.lastCmd = ["devtunnel", "list"] ∧
    ((c10State.update (Msg.key Key.enter)).1.update (Msg.key (Key.char 'r'))).2 =
      Cmd.dispatch ["devtunnel", "list"] := by
  have h := c10_abort_frame c10State
    (Part000.item "show" "Show tunnel details" ["show"] ["tunnel-id"]) 0
    rfl rfl rfl rfl (by decide) (by decide) (by decide) (by decide)
  exact ⟨h.1, h.2.1, h.2.2.2⟩

/-- C9, amended.  After any resize message the category-grid variant's
output viewport is clamped to width at least 20 and height at least 8, and
the flat-list variant's viewport height is clamped to at least 8 — but the
flat-list variant's viewport width equals the reported terminal width
minus 4, with no lower clamp, so it can be zero or negative. -/
theorem c9_resize_clamped (m1 : Part000.Model) (m2 : MainGo.Model) (w h : Int) :
    20 ≤ ((m1.update (Msg.winSize w h)).1).viewport.width ∧
    8 ≤ ((m1.update (Msg.winSize w h)).1).viewport.height ∧
    8 ≤ ((m2.update (Msg.winSize w h)).1).viewport.height ∧
    ((m2.update (Msg.winSize w h)).1).viewport.width = w - 4 := by
  refine ⟨?_, ?_, ?_, ?_⟩
  · by_cases hr : m1.ready <;>
      simp [Part000.Model.update, hr, le_max_left]
  · by_cases hr : m1.ready <;>
      simp [Part000.Model.update, hr, le_max_left]
  · by_cases hr : m2.ready <;>
      simp [MainGo.Model.update, MainGo.viewportFall, Viewport.update, hr,
        le_max_left]
  · by_cases hr : m2.ready <;>
      simp [MainGo.Model.update, MainGo.viewportFall, Viewport.update, hr]
